import Mathlib

/-!
Shallow embedding of `src/exfetch.ts` (hugoalh-studio/exfetch-deno).

JS numbers are modelled as `JsNum` (NaN, +Infinity, or an exact rational);
finite arithmetic is carried out in `ℚ`.  The environment pieces a JS
runtime supplies (the transport, `Date.parse`, `Date.now`, the uniform
random draw, URL resolution) are passed in as explicit function
parameters.  The two repository files that `src/exfetch.ts` imports but
that are not present in the sources (`src/internal/jitter.ts` and
`src/header/link.ts`) are modelled from the specification and marked as
such on their definitions.
-/

namespace ExFetchSpec

/-- A JS number: NaN, +Infinity, or a finite value (exact rational). -/
inductive JsNum
  | nan
  | inf
  | val (q : ℚ)
deriving DecidableEq

def JsNum.toQ : JsNum → ℚ
  | .val q => q
  | _ => 0

def JsNum.toNatJ : JsNum → Nat
  | .val q => q.num.toNat
  | _ => 0

def maxSafeInteger : ℚ := 9007199254740991

/-- JS `Number.isSafeInteger` on a finite value. -/
def isSafeIntegerQ (q : ℚ) : Bool :=
  q.den == 1 && decide (-maxSafeInteger ≤ q) && decide (q ≤ maxSafeInteger)

/-- JS `Number.isSafeInteger` on a JS number (false on NaN and Infinity). -/
def isSafeIntegerJ : JsNum → Bool
  | .val q => isSafeIntegerQ q
  | _ => false

/-- Test `c < x` for a JS number `x` (false when `x` is NaN). -/
def jgtQ : JsNum → ℚ → Bool
  | .val q, c => decide (c < q)
  | .inf, _ => true
  | .nan, _ => false

/-- Test `x < c` for a JS number `x` (false when `x` is NaN or Infinity). -/
def jltQ : JsNum → ℚ → Bool
  | .val q, c => decide (q < c)
  | _, _ => false

/-- Test `c ≤ x` for a JS number `x` (false when `x` is NaN). -/
def jgeQ : JsNum → ℚ → Bool
  | .val q, c => decide (c ≤ q)
  | .inf, _ => true
  | .nan, _ => false

/-- Test `x ≤ c` for a JS number `x` (false when `x` is NaN or Infinity). -/
def jleQ : JsNum → ℚ → Bool
  | .val q, c => decide (q ≤ c)
  | _, _ => false

/-- Line 6 of `src/exfetch.ts`: the standard retryable status codes. -/
def statusCodeRetryable : List Nat := [408, 429, 500, 502, 503, 504, 506, 507, 508]

def isRetryable (status : Nat) : Bool := statusCodeRetryable.contains status

/-- Link metadata of a response as consumed through `HTTPHeaderLink`:
either parsing raises (malformed), or it yields the list of targets of
the "next" relation (first component of each `getByRel "next"` entry).
An absent `Link` header is the `entries []` case. -/
inductive LinkMeta
  | malformed (msg : String)
  | entries (nextTargets : List String)
deriving DecidableEq

/-- The slice of a JS `Response` that `src/exfetch.ts` consumes:
status, status text, the two retry-hint headers (results of
`headers.get "Retry-After"` and `headers.get "x-ratelimit-reset"`),
and the link metadata. -/
structure Response where
  status : Nat
  statusText : String
  retryAfterHeader : Option String
  xRatelimitResetHeader : Option String
  linkMeta : LinkMeta
deriving DecidableEq

/-- JS `Response.ok`: status in the range 200–299. -/
def Response.ok (r : Response) : Bool := 200 ≤ r.status && r.status < 300

/-- The resolved retry options held in `ExFetch.#retry` (lines 145–151). -/
structure RetryConfig where
  attempts : Nat
  backoffMultiplier : ℚ
  condition : Option (Nat → Bool → Bool)
  delayMaximum : ℚ
  delayMinimum : ℚ
  jitter : ℚ

/-- Defaults of `ExFetch.#retry` (lines 145–151). -/
def defaultRetry : RetryConfig :=
  { attempts := 4, backoffMultiplier := 2, condition := none,
    delayMaximum := 60000, delayMinimum := 1000, jitter := 1 }

/-- The resolved paginate options held in `ExFetch.#paginate`
(lines 140–144); `count = none` models `Infinity`. -/
structure PaginateConfig where
  count : Option Nat
  linkUpNextPage : Option (String → List String → Except String String)
  pause : ℚ
  throwOnInvalidHeaderLink : Bool

/-- Defaults of `ExFetch.#paginate` (lines 140–144). -/
def defaultPaginate : PaginateConfig :=
  { count := none, linkUpNextPage := none, pause := 0, throwOnInvalidHeaderLink := true }

/-- Modelled from the spec: `exponentialBackoffWithJitter` from
`src/internal/jitter.ts`, which is not present in the sources.
Spec 4.1: exponential backoff `min(cap, base * multiplier ^ attempt)`,
then full-range jitter: the final value is a uniform draw over the
interval that the jitter factor linearly interpolates between the
unjittered value (jitter = 0) and `[0, exponential value]` (jitter = 1).
`u` is the uniform random draw in `[0, 1]`. -/
def exponentialBackoffWithJitter (attempt : Nat) (base cap jitter multiplier u : ℚ) : ℚ :=
  let expo := min cap (base * multiplier ^ attempt)
  let low := expo * (1 - jitter)
  low + u * (expo - low)

/-- The regular expression test on line 292 of `src/exfetch.ts`:
nonempty, first character in 1–9, remaining characters in 0–9. -/
def isPosIntString (s : String) : Bool :=
  match s.data with
  | [] => false
  | c :: cs => ('1' ≤ c && c ≤ '9') && cs.all (fun d => '0' ≤ d && d ≤ '9')

/-- JS `Number(s)` on a string matching the test above. -/
def strToNat (s : String) : Nat :=
  s.data.foldl (fun n c => n * 10 + (c.toNat - '0'.toNat)) 0

/-- JS `x ??= v` on a possibly-unassigned variable: assign only when the
variable is still undefined (NaN is a value, so it is kept). -/
def coalesceAssign (cur : Option JsNum) (v : JsNum) : Option JsNum :=
  match cur with
  | none => some v
  | some _ => cur

/-- Lines 290–299: fold one retry-hint header value into `delayTime`.
`dateParse` models the JS builtin `Date.parse` (`none` = NaN);
the numeric branch multiplies the parsed seconds by 1000, the other
branch computes `Date.parse value - Date.now()` (NaN propagates). -/
def applyHintHeader (dateParse : String → Option ℚ) (now : ℚ)
    (cur : Option JsNum) (headerValue : Option String) : Option JsNum :=
  match headerValue with
  | none => cur
  | some v =>
    if isPosIntString v then
      coalesceAssign cur (.val ((strToNat v : ℚ) * 1000))
    else
      coalesceAssign cur (match dateParse v with
        | none => .nan
        | some t => .val (t - now))

/-- JS `Math.max 1000 x` on a JS number (NaN propagates). -/
def jsMaxFloor : JsNum → JsNum
  | .nan => .nan
  | .inf => .inf
  | .val q => .val (max 1000 q)

/-- Lines 288–308: the delay chosen before a retry — the retry-hint
headers in order with `??=`, else the backoff calculator (called, as on
lines 301–307, with `attempt := cfg.attempts`, the configured maximum),
then `Math.max(1000, delayTime)`. -/
def computeDelayTime (cfg : RetryConfig) (dateParse : String → Option ℚ)
    (now u : ℚ) (response : Response) : JsNum :=
  let d0 : Option JsNum := none
  let d1 := applyHintHeader dateParse now d0 response.retryAfterHeader
  let d2 := applyHintHeader dateParse now d1 response.xRatelimitResetHeader
  let d3 : JsNum :=
    match d2 with
    | none => .val (exponentialBackoffWithJitter cfg.attempts cfg.delayMinimum
        cfg.delayMaximum cfg.jitter cfg.backoffMultiplier u)
    | some x => x
  jsMaxFloor d3

/-- Lines 275–284: the retry decision. A configured custom condition
decides alone (it receives the status and the standard classification);
otherwise the standard classification decides. -/
def shouldRetry (cfg : RetryConfig) (status : Nat) : Bool :=
  let retryable := isRetryable status
  match cfg.condition with
  | some c => c status retryable
  | none => retryable

/-- The retry event payload `ExFetchEventOnRetryPayload` (lines 113–134). -/
structure RetryEvent where
  attemptCurrent : Nat
  attempts : Nat
  retryAfter : JsNum
  statusCode : Nat
  statusText : String
deriving DecidableEq

/-- The observable outcome of `ExFetch.fetch`: the returned response,
the number of transport calls, the emitted retry events, and the delays
waited (in order). -/
structure FetchResult where
  response : Response
  fetchCount : Nat
  events : List RetryEvent
  delays : List JsNum
deriving DecidableEq

/-- Lines 271–319: the do-while retry loop.  `transport i` is the
response of the `(i+1)`-th transport call; `now i` and `u i` are the
clock and the uniform draw at retry `i`.  The fuel argument is only a
structural-recursion device: the loop can only leave through its break
statements, and `ExFetch.fetch` supplies enough fuel that the fuel-0
branch is never reached. -/
def fetchGo (cfg : RetryConfig) (transport : Nat → Response)
    (dateParse : String → Option ℚ) (now u : Nat → ℚ) :
    Nat → Nat → FetchResult
  | attempt, 0 =>
    { response := transport attempt, fetchCount := 1, events := [], delays := [] }
  | attempt, fuel + 1 =>
    let response := transport attempt
    if shouldRetry cfg response.status then
      if cfg.attempts ≤ attempt then
        { response := response, fetchCount := 1, events := [], delays := [] }
      else
        let d := computeDelayTime cfg dateParse (now attempt) (u attempt) response
        let ev : RetryEvent :=
          { attemptCurrent := attempt + 1, attempts := cfg.attempts,
            retryAfter := d, statusCode := response.status,
            statusText := response.statusText }
        if attempt + 1 ≤ cfg.attempts then
          let rest := fetchGo cfg transport dateParse now u (attempt + 1) fuel
          { response := rest.response, fetchCount := rest.fetchCount + 1,
            events := ev :: rest.events, delays := d :: rest.delays }
        else
          { response := response, fetchCount := 1, events := [ev], delays := [d] }
    else
      { response := response, fetchCount := 1, events := [], delays := [] }

/-- The method `ExFetch.fetch` (lines 266–321), starting at `attempt = 0`. -/
def ExFetch.fetch (cfg : RetryConfig) (transport : Nat → Response)
    (dateParse : String → Option ℚ) (now u : Nat → ℚ) : FetchResult :=
  fetchGo cfg transport dateParse now u 0 (cfg.attempts + 1)

/-- Modelled from the spec: `HTTPHeaderLink.parse` / `getByRel "next"`
from `src/header/link.ts`, which is not present in the sources.  Per
spec 4.4 and 6, the parser raises on malformed link metadata and
otherwise allows lookup of the entries of the "next" relation. -/
def parseHeaderLink : LinkMeta → Except String (List String)
  | .malformed msg => .error msg
  | .entries ts => .ok ts

/-- The message of the TypeError JS raises when evaluating
`getByRel("next")[0][0]` with no "next" entry (`undefined[0]`). -/
def undefinedIndexMsg : String :=
  "TypeError: Cannot read properties of undefined (reading 0)"

/-- Lines 346–352: next-URL discovery on a successful page.  `rv t b`
models `new URL(t, b)` (which may throw). -/
def discoverNext (opts : PaginateConfig) (rv : String → String → Except String String)
    (uriLookUp : String) (resp : Response) : Except String String :=
  match parseHeaderLink resp.linkMeta with
  | .error e => .error e
  | .ok targets =>
    match opts.linkUpNextPage with
    | some f => f uriLookUp targets
    | none =>
      match targets with
      | [] => .error undefinedIndexMsg
      | tgt :: _ => rv tgt uriLookUp

/-- Outcome of `ExFetch.fetchPaginate`: either a thrown error or the
returned responses together with the total number of transport calls. -/
inductive PaginateResult
  | thrown (msg : String)
  | returned (responses : List Response) (fetches : Nat)
deriving DecidableEq

/-- The loop guard `page ≤ optionsResolve.count`, with `count = none` meaning Infinity. -/
def pageWithinCount (page : Nat) : Option Nat → Bool
  | none => true
  | some n => page ≤ n

/-- Lines 345–358: what a fetched page contributes to the loop control —
on a success status, next-URL discovery runs under try/catch, a caught
error becoming either a SyntaxError naming the page URL (when
`throwOnInvalidHeaderLink`) or a silent stop; on a non-success status no
discovery is attempted. -/
def pageNext (opts : PaginateConfig) (rv : String → String → Except String String)
    (uriVal : String) (resp : Response) : Except String (Option String) :=
  if resp.ok then
    match discoverNext opts rv uriVal resp with
    | .ok nx => .ok (some nx)
    | .error e =>
      if opts.throwOnInvalidHeaderLink then
        .error ("[" ++ uriVal ++ "] " ++ e)
      else .ok none
  else .ok none

/-- Lines 337–359: the pagination loop.  One fuel unit per iteration
(the loop may genuinely run forever on an unbounded cyclic chain);
`none` means the fuel ran out before the loop terminated.  The
inter-page pause only affects timing and is not observable here. -/
def paginateGo (rc : RetryConfig) (opts : PaginateConfig)
    (transport : String → Nat → Response) (dateParse : String → Option ℚ)
    (now u : String → Nat → ℚ) (rv : String → String → Except String String) :
    Nat → Nat → Option String → Option PaginateResult
  | 0, page, uri =>
    if pageWithinCount page opts.count then
      match uri with
      | none => some (.returned [] 0)
      | some _ => none
    else some (.returned [] 0)
  | fuel + 1, page, uri =>
    if pageWithinCount page opts.count then
      match uri with
      | none => some (.returned [] 0)
      | some uriVal =>
        let fr := ExFetch.fetch rc (transport uriVal) dateParse (now uriVal) (u uriVal)
        match pageNext opts rv uriVal fr.response with
        | .error e => some (.thrown e)
        | .ok nx =>
          match paginateGo rc opts transport dateParse now u rv fuel (page + 1) nx with
          | none => none
          | some (.thrown e) => some (.thrown e)
          | some (.returned rs c) =>
            some (.returned (fr.response :: rs) (c + fr.fetchCount))
    else some (.returned [] 0)

/-- The method `ExFetch.fetchPaginate` (lines 329–361), starting at page 1 with
the input URL. -/
def ExFetch.fetchPaginate (rc : RetryConfig) (opts : PaginateConfig)
    (transport : String → Nat → Response) (dateParse : String → Option ℚ)
    (now u : String → Nat → ℚ) (rv : String → String → Except String String)
    (input : String) (fuel : Nat) : Option PaginateResult :=
  paginateGo rc opts transport dateParse now u rv fuel 1 (some input)

/-- A JS value returned by a user-supplied retry condition: a boolean,
or anything else. -/
inductive JsVal
  | bool (b : Bool)
  | nonBool
deriving DecidableEq

/-- Outcome of calling a user-supplied retry condition: it may throw, or
return a JS value. -/
inductive CondResult
  | throws (msg : String)
  | returns (v : JsVal)
deriving DecidableEq

/-- A user-supplied `options.retry.condition` function as the constructor
sees it. -/
abbrev CondFn := Nat → Bool → CondResult

def condResultToBool : CondResult → Bool
  | .returns (.bool b) => b
  | _ => false

/-- The input surface of `ExFetchRetryOptions` (lines 32–89): every
numeric field and its aliases (a missing field is `none`), plus the
optional condition function.  Non-number, non-undefined field values
always raise a TypeError in the source and are outside this domain. -/
structure ExFetchRetryOptions where
  attempts : Option JsNum := none
  attemptsMax : Option JsNum := none
  attemptsMaximum : Option JsNum := none
  maxAttempts : Option JsNum := none
  maximumAttempts : Option JsNum := none
  backoffMultiplier : Option JsNum := none
  backoffMultiply : Option JsNum := none
  multiplier : Option JsNum := none
  multiply : Option JsNum := none
  condition : Option CondFn := none
  jitter : Option JsNum := none
  delayMaximum : Option JsNum := none
  delayMax : Option JsNum := none
  maxDelay : Option JsNum := none
  maximumDelay : Option JsNum := none
  maximumTimeout : Option JsNum := none
  maxTimeout : Option JsNum := none
  timeoutMax : Option JsNum := none
  timeoutMaximum : Option JsNum := none
  delayMinimum : Option JsNum := none
  delayMin : Option JsNum := none
  minDelay : Option JsNum := none
  minimumDelay : Option JsNum := none
  minimumTimeout : Option JsNum := none
  minTimeout : Option JsNum := none
  timeoutMin : Option JsNum := none
  timeoutMinimum : Option JsNum := none

/-- JS `a ?? b` on option fields (NaN is a value, not nullish). -/
def jsOr (a b : Option JsNum) : Option JsNum :=
  match a with
  | none => b
  | some x => some x

/-- Lines 187–190: fold the accepted alias spellings into the canonical
fields with `??=` / `??` chains, in source order. -/
def resolveRetryAliases (o : ExFetchRetryOptions) : ExFetchRetryOptions :=
  { o with
    attempts := jsOr o.attempts (jsOr o.attemptsMaximum (jsOr o.attemptsMax
      (jsOr o.maximumAttempts o.maxAttempts))),
    backoffMultiplier := jsOr o.backoffMultiplier (jsOr o.backoffMultiply
      (jsOr o.multiplier o.multiply)),
    delayMaximum := jsOr o.delayMaximum (jsOr o.delayMax (jsOr o.maximumDelay
      (jsOr o.maxDelay (jsOr o.timeoutMaximum (jsOr o.timeoutMax
      (jsOr o.maximumTimeout o.maxTimeout)))))),
    delayMinimum := jsOr o.delayMinimum (jsOr o.delayMin (jsOr o.minimumDelay
      (jsOr o.minDelay (jsOr o.timeoutMinimum (jsOr o.timeoutMin
      (jsOr o.minimumTimeout o.minTimeout)))))) }

/-- The input surface of `ExFetchPaginateOptions` (lines 7–31). -/
structure ExFetchPaginateOptionsIn where
  count : Option JsNum := none
  linkUpNextPage : Option (String → List String → Except String String) := none
  pause : Option JsNum := none
  throwOnInvalidHeaderLink : Option Bool := none

/-- The whole `ExFetchOptions` input (lines 90–111).  `event` is
`some true` for an `EventEmitter` instance, `some false` for any other
non-undefined value, `none` when absent. -/
structure ExFetchOptionsIn where
  event : Option Bool := none
  paginate : ExFetchPaginateOptionsIn := {}
  retry : ExFetchRetryOptions := {}
  timeout : Option JsNum := none

/-- The validated, resolved state of an `ExFetch` instance. -/
structure ExFetchConfig where
  hasEvent : Bool
  paginate : PaginateConfig
  retry : RetryConfig
  timeout : Option ℚ

/-- One numeric option check, the shared shape of lines 198–213 and
227–250: undefined keeps the default, NaN lands in the TypeError branch
(`typeof` is "number" but `Number.isNaN` holds), any other number is
range-checked. -/
def checkNumField (d : JsNum) (inp : Option JsNum) (valid : JsNum → Bool)
    (rangeErr typeErr : String) : Except String JsNum :=
  match inp with
  | none => .ok d
  | some .nan => .error typeErr
  | some j => if valid j then .ok j else .error rangeErr

def condTypeErrMsg : String :=
  "TypeError: Argument options.retry.condition must be return type of boolean!"

/-- Lines 214–226: probe a supplied condition exactly once with
`randomInt(100, 600)` (passed in as `probeArg`) and `true`; a thrown
exception is rethrown, a non-boolean return raises a TypeError.  The
first component records the calls made to the condition. -/
def checkConditionProbe (cond : Option CondFn) (probeArg : Nat) :
    List (Nat × Bool) × Except String (Option CondFn) :=
  match cond with
  | none => ([], .ok none)
  | some f =>
    ([(probeArg, true)],
      match f probeArg true with
      | .throws e => .error e
      | .returns (.bool _) => .ok (some f)
      | .returns .nonBool => .error condTypeErrMsg)

/-- Lines 198–250 of the constructor: validate and store the retry
options, in source order (attempts, backoffMultiplier, condition,
delayMaximum, delayMinimum, jitter).  The first component is the list
of probe calls made to the supplied condition. -/
def applyRetryOptions (o : ExFetchRetryOptions) (probeArg : Nat) :
    List (Nat × Bool) × Except String RetryConfig :=
  match checkNumField (.val 4) o.attempts
      (fun j => isSafeIntegerJ j && jgeQ j 0)
      "RangeError: Argument options.retry.attempts must be a number which is integer, positive, and safe!"
      "TypeError: Argument options.retry.attempts must be type of number or undefined!" with
  | .error e => ([], .error e)
  | .ok aJ =>
  match checkNumField (.val 2) o.backoffMultiplier
      (fun j => jgeQ j 1 && jleQ j maxSafeInteger)
      "RangeError: Argument options.retry.backoffMultiplier must be a number which is positive, safe, and >= 1!"
      "TypeError: Argument options.retry.backoffMultiplier must be type of number or undefined!" with
  | .error e => ([], .error e)
  | .ok bJ =>
  match checkConditionProbe o.condition probeArg with
  | (tr, .error e) => (tr, .error e)
  | (tr, .ok condO) =>
  match checkNumField (.val 60000) o.delayMaximum
      (fun j => isSafeIntegerJ j && jgtQ j 0)
      "RangeError: Argument options.retry.delayMaximum must be a number which is integer, positive, safe, and > 0!"
      "TypeError: Argument options.retry.delayMaximum must be type of number or undefined!" with
  | .error e => (tr, .error e)
  | .ok dmaxJ =>
  match checkNumField (.val 1000) o.delayMinimum
      (fun j => isSafeIntegerJ j && jgtQ j 0 && jltQ j dmaxJ.toQ)
      "RangeError: Argument options.retry.delayMinimum must be a number which is integer, positive, safe, > 0, and < delayMaximum!"
      "TypeError: Argument options.retry.delayMinimum must be type of number or undefined!" with
  | .error e => (tr, .error e)
  | .ok dminJ =>
  match checkNumField (.val 1) o.jitter
      (fun j => jgeQ j 0 && jleQ j 1)
      "RangeError: Argument options.retry.jitter must be a number which is between 0 and 1!"
      "TypeError: Argument options.retry.jitter must be type of number or undefined!" with
  | .error e => (tr, .error e)
  | .ok jJ =>
    let rc : RetryConfig :=
      { attempts := aJ.toNatJ, backoffMultiplier := bJ.toQ,
        condition := condO.map (fun f s b => condResultToBool (f s b)),
        delayMaximum := dmaxJ.toQ, delayMinimum := dminJ.toQ, jitter := jJ.toQ }
    (tr, .ok rc)

/-- Lines 160–166 of `#checkPaginateOptions`: the `count` field. -/
def checkCountField : Option JsNum → Except String Unit
  | none => .ok ()
  | some .nan => .error "TypeError: Argument options.paginate.count must be type of number or undefined!"
  | some .inf => .ok ()
  | some (.val q) =>
    if isSafeIntegerQ q && decide (0 < q) then .ok ()
    else .error "RangeError: Argument options.paginate.count must be a number which is integer, positive, safe, and > 0!"

/-- Lines 170–176 of `#checkPaginateOptions`: the `pause` field. -/
def checkPauseField : Option JsNum → Except String Unit
  | none => .ok ()
  | some .nan => .error "TypeError: Argument options.paginate.pause must be type of number or undefined!"
  | some .inf => .error "RangeError: Argument options.paginate.pause must be a number which is integer, positive, and safe!"
  | some (.val q) =>
    if isSafeIntegerQ q && decide (0 ≤ q) then .ok ()
    else .error "RangeError: Argument options.paginate.pause must be a number which is integer, positive, and safe!"

/-- The private method `#checkPaginateOptions` (lines 159–180); the function and boolean
fields are well-typed by construction in this domain. -/
def checkPaginateOptions (o : ExFetchPaginateOptionsIn) : Except String Unit :=
  match checkCountField o.count with
  | .error e => .error e
  | .ok _ => checkPauseField o.pause

/-- Line 197 / line 331: `{...defaults, ...options}` on validated
paginate options. -/
def mergePaginate (d : PaginateConfig) (o : ExFetchPaginateOptionsIn) : PaginateConfig :=
  { count := match o.count with
      | none => d.count
      | some .inf => none
      | some (.val q) => some q.num.toNat
      | some .nan => d.count,
    linkUpNextPage := match o.linkUpNextPage with
      | none => d.linkUpNextPage
      | some f => some f,
    pause := match o.pause with
      | none => d.pause
      | some j => j.toQ,
    throwOnInvalidHeaderLink := match o.throwOnInvalidHeaderLink with
      | none => d.throwOnInvalidHeaderLink
      | some b => b }

/-- Lines 251–258: the overall timeout (`none` result = Infinity). -/
def checkTimeout : Option JsNum → Except String (Option ℚ)
  | none => .ok none
  | some .nan => .error "TypeError: Argument options.timeout must be type of number or undefined!"
  | some .inf => .ok none
  | some (.val q) =>
    if isSafeIntegerQ q && decide (0 < q) then .ok (some q)
    else .error "RangeError: Argument options.timeout must be a number which is integer, positive, safe, and > 0!"

/-- The `ExFetch` constructor (lines 185–259): alias resolution, the
event check, paginate validation and merge, the retry checks (with the
condition probe argument `probeArg` standing for `randomInt(100, 600)`,
whose value lies in `[100, 600)`), and the timeout check.  The first
component records the probe calls made to a supplied condition. -/
def ExFetch.construct (o : ExFetchOptionsIn) (probeArg : Nat) :
    List (Nat × Bool) × Except String ExFetchConfig :=
  let r := resolveRetryAliases o.retry
  match o.event with
  | some false =>
    ([], .error "TypeError: Argument options.event must be instance of EventEmitter or type of undefined!")
  | _ =>
    match checkPaginateOptions o.paginate with
    | .error e => ([], .error e)
    | .ok _ =>
      let pag := mergePaginate defaultPaginate o.paginate
      match applyRetryOptions r probeArg with
      | (tr, .error e) => (tr, .error e)
      | (tr, .ok rc) =>
        match checkTimeout o.timeout with
        | .error e => (tr, .error e)
        | .ok t =>
          let cfg : ExFetchConfig :=
            { hasEvent := o.event == some true, paginate := pag,
              retry := rc, timeout := t }
          (tr, .ok cfg)

/-- A response carrying only a status (no hint headers, no link header). -/
def plainResp (status : Nat) : Response :=
  { status := status, statusText := "", retryAfterHeader := none,
    xRatelimitResetHeader := none, linkMeta := .entries [] }

/-- An environment in which no header value parses as a date
(JS `Date.parse` yields NaN on it). -/
def dateParseFails : String → Option ℚ := fun _ => none

def now0 : Nat → ℚ := fun _ => 0

def u0 : Nat → ℚ := fun _ => 0

/-- Transport stub of spec 8: status 500 on attempts 1–3, status 200
from attempt 4 on. -/
def transport500then200 : Nat → Response := fun i =>
  if i < 3 then plainResp 500 else plainResp 200

/-- A 500 response with an unparsable `Retry-After` header value. -/
def respRetryAfterNever : Response :=
  { status := 500, statusText := "", retryAfterHeader := some "never",
    xRatelimitResetHeader := none, linkMeta := .entries [] }

/-- A 500 response with unparsable `Retry-After` and numeric
`x-ratelimit-reset` of 120 seconds. -/
def respNever120 : Response :=
  { status := 500, statusText := "", retryAfterHeader := some "never",
    xRatelimitResetHeader := some "120", linkMeta := .entries [] }

/-- A 500 response whose only hint is `x-ratelimit-reset: 120`. -/
def respOnly120 : Response :=
  { status := 500, statusText := "", retryAfterHeader := none,
    xRatelimitResetHeader := some "120", linkMeta := .entries [] }

/-- A successful page whose link metadata has the given "next" targets. -/
def okPage (nextTargets : List String) : Response :=
  { status := 200, statusText := "OK", retryAfterHeader := none,
    xRatelimitResetHeader := none, linkMeta := .entries nextTargets }

/-- A successful page with malformed link metadata. -/
def okPageBadLink : Response :=
  { status := 200, statusText := "OK", retryAfterHeader := none,
    xRatelimitResetHeader := none, linkMeta := .malformed "bad link syntax" }

/-- Three pages chained u1 → u2 → u3; the last page has no next link. -/
def chain3 : String → Nat → Response := fun url _ =>
  if url = "u1" then okPage ["u2"]
  else if url = "u2" then okPage ["u3"]
  else okPage []

def nowS : String → Nat → ℚ := fun _ _ => 0

def uS : String → Nat → ℚ := fun _ _ => 0

/-- URL resolution in which every link target is an absolute URL. -/
def rvId : String → String → Except String String := fun t _ => .ok t

end ExFetchSpec

namespace ExFetchSpec

/-- One loop iteration can only add one transport call, and the loop
breaks once `cfg.attempts` retries are done: the count is bounded by
the retries left (or 1 once past the budget). -/
theorem fetchGo_fetchCount_le (cfg : RetryConfig) (t : Nat → Response)
    (dp : String → Option ℚ) (n u : Nat → ℚ) :
    ∀ fuel attempt, (fetchGo cfg t dp n u attempt fuel).fetchCount ≤
      max 1 (cfg.attempts + 1 - attempt) := by
  intro fuel
  induction fuel with
  | zero =>
    intro attempt
    simp [fetchGo]
  | succ f ih =>
    intro attempt
    simp only [fetchGo]
    split
    · split
      · simp
      · split
        · have h := ih (attempt + 1)
          simp only [FetchResult.mk.injEq]
          simp only [ge_iff_le] at *
          omega
        · simp
    · simp

/-- C1 (amended): ExFetch.fetch issues at most maxAttempts + 1 transport
attempts (the initial attempt plus up to maxAttempts retries) and
returns the latest response as-is; in particular, with maxAttempts = 4
against a transport returning status 500 on attempts 1..3 and 200 on
attempt 4, exactly 4 attempts occur and the returned response has
status 200, and HTTP-level failures are never thrown as exceptions
(the embedding of fetch is a total function into responses). -/
theorem c1_retry_attempt_bound :
    (∀ (cfg : RetryConfig) (t : Nat → Response) (dp : String → Option ℚ) (n u : Nat → ℚ),
      (ExFetch.fetch cfg t dp n u).fetchCount ≤ cfg.attempts + 1) ∧
    (ExFetch.fetch defaultRetry transport500then200 dateParseFails now0 u0).fetchCount = 4 ∧
    (ExFetch.fetch defaultRetry transport500then200 dateParseFails now0 u0).response.status = 200 := by
  refine ⟨?_, by decide, by decide⟩
  intro cfg t dp n u
  have h := fetchGo_fetchCount_le cfg t dp n u (cfg.attempts + 1) 0
  simp only [ExFetch.fetch]
  omega

/-- C1 counterexample: with maxAttempts = 4 and a transport that always
returns status 500, the code issues 5 transport attempts, not at most 4. -/
theorem c1_counterexample :
    (ExFetch.fetch defaultRetry (fun _ => plainResp 500) dateParseFails now0 u0).fetchCount = 5 ∧
    defaultRetry.attempts = 4 := by decide

/-- C2: the fallback delay passes the configured attempts maximum (not
the current attempt count) as the backoff exponent: with
delayMin = 1000, multiplier = 2, delayMax = 60000, maxAttempts = 4 and
jitter = 0, every one of the four fallback delays is
min(60000, 1000 * 2 ^ 4) = 16000, whereas the claimed formula
min(delayMax, delayMin * multiplier ^ k) gives 1000 before the first
retry (k = 0). -/
theorem c2_backoff_uses_attempts_maximum :
    ((ExFetch.fetch { defaultRetry with jitter := 0 } (fun _ => plainResp 500)
      dateParseFails now0 u0).delays =
        [.val 16000, .val 16000, .val 16000, .val 16000]) ∧
    exponentialBackoffWithJitter 0 1000 60000 0 2 0 = 1000 := by
  constructor
  · norm_num [ExFetch.fetch, fetchGo, shouldRetry, defaultRetry, isRetryable,
      statusCodeRetryable, plainResp, computeDelayTime, applyHintHeader, jsMaxFloor,
      dateParseFails, now0, u0, exponentialBackoffWithJitter, min_def, max_def]
  · norm_num [exponentialBackoffWithJitter, min_def]

/-- C3: a present but unparsable non-numeric header value is not
skipped: `Date.parse` yields NaN (it never throws), `delayTime ??=`
assigns that NaN, and the later candidates and the backoff fallback are
never consulted — with Retry-After "never" and x-ratelimit-reset "120"
the computed delay is NaN rather than the claimed 120000 ms; the
numeric path itself does give "120" → 120000 ms. -/
theorem c3_unparsable_hint_not_skipped :
    computeDelayTime defaultRetry dateParseFails 0 0 respNever120 = .nan ∧
    computeDelayTime defaultRetry dateParseFails 0 0 respOnly120 = .val 120000 := by
  constructor
  · decide
  · have h1 : strToNat "120" = 120 := by decide
    have h2 : isPosIntString "120" = true := by decide
    norm_num [computeDelayTime, applyHintHeader, respOnly120, coalesceAssign,
      jsMaxFloor, dateParseFails, h1, h2, max_def]

/-- C7: with an unparsable Retry-After header on a retryable response,
every waited delay and every emitted retryAfter is NaN — Math.max(1000,
NaN) is NaN, so the claimed 1000 ms floor does not hold for every
server hint value. -/
theorem c7_nan_delay_below_floor :
    (ExFetch.fetch defaultRetry (fun _ => respRetryAfterNever) dateParseFails now0 u0).delays
      = [.nan, .nan, .nan, .nan] ∧
    ((ExFetch.fetch defaultRetry (fun _ => respRetryAfterNever) dateParseFails now0 u0).events.map
      (fun e => e.retryAfter)) = [.nan, .nan, .nan, .nan] := by decide


/-- Exiting the loop with no current URL returns no further pages,
whatever the remaining fuel. -/
theorem paginateGo_none (rc : RetryConfig) (opts : PaginateConfig)
    (t : String → Nat → Response) (dp : String → Option ℚ) (n u : String → Nat → ℚ)
    (rv : String → String → Except String String) :
    ∀ fuel page, paginateGo rc opts t dp n u rv fuel page none = some (.returned [] 0) := by
  intro fuel page
  cases fuel <;> simp [paginateGo]

/-- When every response is classified retryable, the loop spends its
whole retry budget. -/
theorem fetchGo_always_retry_count (cfg : RetryConfig) (t : Nat → Response)
    (dp : String → Option ℚ) (n u : Nat → ℚ)
    (hall : ∀ attempt, shouldRetry cfg (t attempt).status = true) :
    ∀ fuel attempt, (fetchGo cfg t dp n u attempt fuel).fetchCount =
      min fuel (cfg.attempts - attempt) + 1 := by
  intro fuel
  induction fuel with
  | zero =>
    intro attempt
    simp [fetchGo]
  | succ f ih =>
    intro attempt
    simp only [fetchGo]
    rw [hall attempt]
    simp only [if_true]
    split
    · simp only []
      omega
    · split
      · have h := ih (attempt + 1)
        simp only [h]
        omega
      · simp only []
        omega

/-- C6: the retry decision — a configured custom condition alone decides
(receiving the status code and the standard classification by the set
408, 429, 500, 502, 503, 504, 506, 507, 508), otherwise membership in
that set decides; a transport always returning 404 with no custom
condition yields exactly 1 attempt regardless of maxAttempts; and a
transport returning 200 with an always-true custom condition keeps
retrying through the whole budget of maxAttempts retries. -/
theorem c6_retry_decision :
    (∀ (cfg : RetryConfig) (c : Nat → Bool → Bool) (s : Nat),
      shouldRetry { cfg with condition := some c } s = c s (isRetryable s) ∧
      shouldRetry { cfg with condition := none } s = isRetryable s) ∧
    (∀ (n : Nat) (dp : String → Option ℚ) (nw u : Nat → ℚ),
      (ExFetch.fetch { defaultRetry with attempts := n } (fun _ => plainResp 404)
        dp nw u).fetchCount = 1) ∧
    (∀ (n : Nat) (dp : String → Option ℚ) (nw u : Nat → ℚ),
      (ExFetch.fetch { defaultRetry with attempts := n, condition := some (fun _ _ => true) }
        (fun _ => plainResp 200) dp nw u).fetchCount = n + 1) := by
  refine ⟨fun cfg c s => ⟨rfl, rfl⟩, ?_, ?_⟩
  · intro n dp nw u
    have h404 : isRetryable 404 = false := by decide
    simp [ExFetch.fetch, fetchGo, plainResp, shouldRetry, defaultRetry, h404]
  · intro n dp nw u
    have h := fetchGo_always_retry_count
      { defaultRetry with attempts := n, condition := some (fun _ _ => true) }
      (fun _ => plainResp 200) dp nw u (fun _ => rfl) (n + 1) 0
    simp only [ExFetch.fetch] at h ⊢
    omega

/-- C4: on a successful page whose link metadata is malformed or absent,
fetchPaginate raises an error whose message names the offending page URL
when throwOnInvalidHeaderLink is true, and returns the pages fetched so
far without error when it is false. -/
theorem c4_invalid_link_header_handling :
    (ExFetch.fetchPaginate defaultRetry defaultPaginate (fun _ _ => okPageBadLink)
      dateParseFails nowS uS rvId "u1" 5 = some (.thrown "[u1] bad link syntax")) ∧
    (ExFetch.fetchPaginate defaultRetry { defaultPaginate with throwOnInvalidHeaderLink := false }
      (fun _ _ => okPageBadLink) dateParseFails nowS uS rvId "u1" 5 =
      some (.returned [okPageBadLink] 1)) ∧
    (ExFetch.fetchPaginate defaultRetry defaultPaginate (fun _ _ => okPage [])
      dateParseFails nowS uS rvId "u1" 5 =
      some (.thrown ("[u1] " ++ undefinedIndexMsg))) ∧
    (ExFetch.fetchPaginate defaultRetry { defaultPaginate with throwOnInvalidHeaderLink := false }
      (fun _ _ => okPage []) dateParseFails nowS uS rvId "u1" 5 =
      some (.returned [okPage []] 1)) := by
  refine ⟨by decide, by decide, by decide, by decide⟩

/-- The page loop never returns more responses than the pages the count
still allows from the current page on. -/
theorem paginateGo_length_le (rc : RetryConfig) (opts : PaginateConfig)
    (t : String → Nat → Response) (dp : String → Option ℚ) (n u : String → Nat → ℚ)
    (rv : String → String → Except String String) (m : Nat) (hm : opts.count = some m) :
    ∀ fuel page uri rs c,
      paginateGo rc opts t dp n u rv fuel page uri = some (.returned rs c) →
      rs.length ≤ m + 1 - page := by
  intro fuel
  induction fuel with
  | zero =>
    intro page uri rs c h
    cases uri with
    | none =>
      simp only [paginateGo] at h
      split at h <;>
      · simp only [Option.some.injEq, PaginateResult.returned.injEq] at h
        obtain ⟨h1, h2⟩ := h
        subst h1
        simp
    | some v =>
      simp only [paginateGo] at h
      split at h
      · simp at h
      · simp only [Option.some.injEq, PaginateResult.returned.injEq] at h
        obtain ⟨h1, h2⟩ := h
        subst h1
        simp
  | succ f ih =>
    intro page uri rs c h
    cases uri with
    | none =>
      simp only [paginateGo] at h
      split at h <;>
      · simp only [Option.some.injEq, PaginateResult.returned.injEq] at h
        obtain ⟨h1, h2⟩ := h
        subst h1
        simp
    | some v =>
      simp only [paginateGo] at h
      split at h
      case isFalse =>
        simp only [Option.some.injEq, PaginateResult.returned.injEq] at h
        obtain ⟨h1, h2⟩ := h
        subst h1
        simp
      rename_i hpage
      have hp : page ≤ m := by
        simpa [pageWithinCount, hm] using hpage
      cases hpn : pageNext opts rv v (ExFetch.fetch rc (t v) dp (n v) (u v)).response with
        | error e =>
          simp only [hpn] at h
          simp at h
        | ok nx =>
          simp only [hpn] at h
          cases hrec : paginateGo rc opts t dp n u rv f (page + 1) nx with
          | none =>
            simp only [hrec] at h
            simp at h
          | some pr =>
            cases pr with
            | thrown e =>
              simp only [hrec] at h
              simp at h
            | returned rs2 c2 =>
              simp only [hrec, Option.some.injEq, PaginateResult.returned.injEq] at h
              obtain ⟨h1, h2⟩ := h
              subst h1
              have h3 := ih (page + 1) nx rs2 c2 hrec
              simp only [List.length_cons]
              omega

/-- C5 (amended): three pages chained via "next" link relations are all
returned in request order when throwOnInvalidHeaderLink is false (under
the default true, the chain instead ends in a thrown error at the last
page, which has no next link — see the counterexample); with
maxPages = 2 exactly 2 responses come back, stopping despite the
available next link; and in general the returned sequence never has
more than maxPages elements. -/
theorem c5_pagination_bounds :
    (ExFetch.fetchPaginate defaultRetry { defaultPaginate with throwOnInvalidHeaderLink := false }
      chain3 dateParseFails nowS uS rvId "u1" 10 =
      some (.returned [okPage ["u2"], okPage ["u3"], okPage []] 3)) ∧
    (ExFetch.fetchPaginate defaultRetry { defaultPaginate with count := some 2 }
      chain3 dateParseFails nowS uS rvId "u1" 10 =
      some (.returned [okPage ["u2"], okPage ["u3"]] 2)) ∧
    (∀ (rc : RetryConfig) (opts : PaginateConfig) (t : String → Nat → Response)
      (dp : String → Option ℚ) (n u : String → Nat → ℚ)
      (rv : String → String → Except String String) (m : Nat) (input : String)
      (fuel : Nat) (rs : List Response) (c : Nat),
      opts.count = some m →
      ExFetch.fetchPaginate rc opts t dp n u rv input fuel = some (.returned rs c) →
      rs.length ≤ m) := by
  refine ⟨by decide, by decide, ?_⟩
  intro rc opts t dp n u rv m input fuel rs c hm h
  have h2 := paginateGo_length_le rc opts t dp n u rv m hm fuel 1 (some input) rs c h
  omega

/-- Witness for the general bound of c5_pagination_bounds at a concrete
instance (maxPages = 2 over the three-page chain). -/
theorem c5_pagination_bounds_witness :
    ([okPage ["u2"], okPage ["u3"]] : List Response).length ≤ 2 :=
  c5_pagination_bounds.2.2 defaultRetry { defaultPaginate with count := some 2 }
    chain3 dateParseFails nowS uS rvId 2 "u1" 10 _ 2 rfl (by decide)

/-- C5 counterexample: with all-default options (maxPages unbounded,
throwOnInvalidHeaderLink true), walking three pages chained via "next"
does not return 3 responses — the final page has no next link, the
undefined-index TypeError is caught and rethrown as a SyntaxError naming
that page, so the whole operation throws. -/
theorem c5_counterexample :
    ExFetch.fetchPaginate defaultRetry defaultPaginate chain3 dateParseFails nowS uS rvId "u1" 10 =
      some (.thrown ("[u3] " ++ undefinedIndexMsg)) := by decide

/-- C8: a page response with a non-success status is still appended to
the output and pagination stops there with no next-page discovery; in
particular a first-page 404 yields exactly one response from exactly one
transport call. -/
theorem c8_nonsuccess_page_stops :
    (ExFetch.fetchPaginate defaultRetry defaultPaginate (fun _ _ => plainResp 404)
      dateParseFails nowS uS rvId "u1" 5 = some (.returned [plainResp 404] 1)) ∧
    (∀ (rc : RetryConfig) (opts : PaginateConfig) (t : String → Nat → Response)
      (dp : String → Option ℚ) (n u : String → Nat → ℚ)
      (rv : String → String → Except String String) (page : Nat) (v : String) (fuel : Nat),
      pageWithinCount page opts.count = true →
      (ExFetch.fetch rc (t v) dp (n v) (u v)).response.ok = false →
      paginateGo rc opts t dp n u rv (fuel + 1) page (some v) =
        some (.returned [(ExFetch.fetch rc (t v) dp (n v) (u v)).response]
          (ExFetch.fetch rc (t v) dp (n v) (u v)).fetchCount)) := by
  refine ⟨by decide, ?_⟩
  intro rc opts t dp n u rv page v fuel hpage hok
  simp only [paginateGo, hpage, if_true]
  simp only [pageNext, hok, Bool.false_eq_true, if_false]
  simp [paginateGo_none]

/-- Witness for c8_nonsuccess_page_stops at the concrete 404 first page. -/
theorem c8_nonsuccess_page_stops_witness :
    paginateGo defaultRetry defaultPaginate (fun _ _ => plainResp 404) dateParseFails
      nowS uS rvId 1 1 (some "u1") =
      some (.returned
        [(ExFetch.fetch defaultRetry ((fun (_ : String) (_ : Nat) => plainResp 404) "u1")
          dateParseFails (nowS "u1") (uS "u1")).response]
        (ExFetch.fetch defaultRetry ((fun (_ : String) (_ : Nat) => plainResp 404) "u1")
          dateParseFails (nowS "u1") (uS "u1")).fetchCount) :=
  c8_nonsuccess_page_stops.2 defaultRetry defaultPaginate (fun _ _ => plainResp 404)
    dateParseFails nowS uS rvId 1 "u1" 0 (by decide) (by decide)


/-- A successful numeric-option check either kept the default (absent
input) or accepted a non-NaN input passing its range predicate. -/
theorem checkNumField_ok {d v : JsNum} {inp : Option JsNum} {valid : JsNum → Bool}
    {rangeErr typeErr : String}
    (h : checkNumField d inp valid rangeErr typeErr = .ok v) :
    (inp = none ∧ v = d) ∨ ∃ j, inp = some j ∧ valid j = true ∧ v = j := by
  cases inp with
  | none =>
    left
    simp only [checkNumField, Except.ok.injEq] at h
    exact ⟨rfl, h.symm⟩
  | some j =>
    cases j with
    | nan => simp [checkNumField] at h
    | inf =>
      right
      simp only [checkNumField] at h
      split at h
      · rename_i hv
        simp only [Except.ok.injEq] at h
        exact ⟨.inf, rfl, hv, h.symm⟩
      · simp at h
    | val q =>
      right
      simp only [checkNumField] at h
      split at h
      · rename_i hv
        simp only [Except.ok.injEq] at h
        exact ⟨.val q, rfl, hv, h.symm⟩
      · simp at h

/-- A JS number that is a safe integer is finite. -/
theorem isSafeIntegerJ_val {j : JsNum} (h : isSafeIntegerJ j = true) :
    ∃ q : ℚ, j = .val q := by
  cases j with
  | nan => simp [isSafeIntegerJ] at h
  | inf => simp [isSafeIntegerJ] at h
  | val q => exact ⟨q, rfl⟩

/-- When the retry checks succeed, a provided delayMinimum was validated
against the (already configured) delayMaximum, while an absent one kept
the default 1000 without any cross-check. -/
theorem applyRetryOptions_ok_delays {o : ExFetchRetryOptions} {p : Nat}
    {tr : List (Nat × Bool)} {rc : RetryConfig}
    (h : applyRetryOptions o p = (tr, .ok rc)) :
    (o.delayMinimum ≠ none → rc.delayMinimum < rc.delayMaximum) ∧
    (o.delayMinimum = none → rc.delayMinimum = 1000) := by
  simp only [applyRetryOptions] at h
  split at h
  · simp at h
  split at h
  · simp at h
  split at h
  · simp at h
  rename_i aJ bJ trp condO hcond
  split at h
  · simp at h
  rename_i dmaxJ hdmax
  split at h
  · simp at h
  rename_i dminJ hdmin
  split at h
  · simp at h
  rename_i jJ hjit
  simp only [Prod.mk.injEq, Except.ok.injEq] at h
  obtain ⟨htr, hrc⟩ := h
  subst hrc
  rcases checkNumField_ok hdmin with ⟨hnone, hval⟩ | ⟨j, hsome, hvalid, hval⟩
  · subst hval
    exact ⟨fun hcontra => absurd hnone hcontra, fun _ => rfl⟩
  · subst hval
    simp only [Bool.and_eq_true] at hvalid
    obtain ⟨⟨hsafe, hpos⟩, hlt⟩ := hvalid
    obtain ⟨q, hq⟩ := isSafeIntegerJ_val hsafe
    subst hq
    simp only [jltQ, decide_eq_true_eq] at hlt
    refine ⟨fun _ => ?_, fun hcontra => ?_⟩
    · simpa [JsNum.toQ] using hlt
    · rw [hsome] at hcontra
      exact absurd hcontra (by simp)

/-- A successful construction went through the retry checks on the
alias-resolved retry options, and stored their result. -/
theorem construct_ok_retry {o : ExFetchOptionsIn} {p : Nat} {cfg : ExFetchConfig}
    (h : (ExFetch.construct o p).2 = .ok cfg) :
    ∃ tr, applyRetryOptions (resolveRetryAliases o.retry) p = (tr, .ok cfg.retry) := by
  simp only [ExFetch.construct] at h
  split at h
  · simp at h
  split at h
  · simp at h
  split at h
  · simp at h
  rename_i tr rc hretry
  split at h
  · simp at h
  simp only [Except.ok.injEq] at h
  subst h
  exact ⟨tr, hretry⟩

/-- C9 (amended): the invariant delayMin < delayMax is enforced at
construction only when retry.delayMinimum (or one of its aliases) is
provided — then it is validated against the configured delayMaximum and
construction fails otherwise; when it is absent, the default 1000 is
kept with no re-validation, so options providing only a small
delayMaximum are accepted with delayMin ≥ delayMax. -/
theorem c9_delay_invariant :
    ∀ (o : ExFetchOptionsIn) (p : Nat) (cfg : ExFetchConfig),
      (ExFetch.construct o p).2 = .ok cfg →
      ((resolveRetryAliases o.retry).delayMinimum ≠ none →
        cfg.retry.delayMinimum < cfg.retry.delayMaximum) ∧
      ((resolveRetryAliases o.retry).delayMinimum = none →
        cfg.retry.delayMinimum = 1000) := by
  intro o p cfg h
  obtain ⟨tr, htr⟩ := construct_ok_retry h
  exact applyRetryOptions_ok_delays htr

/-- Witness for c9_delay_invariant: options providing
delayMinimum = 400 and delayMaximum = 500 are accepted and satisfy the
invariant. -/
theorem c9_delay_invariant_witness :
    ((resolveRetryAliases
        ({ delayMinimum := some (.val 400), delayMaximum := some (.val 500) } :
          ExFetchRetryOptions)).delayMinimum ≠ none →
      (400 : ℚ) < 500) ∧
    ((resolveRetryAliases
        ({ delayMinimum := some (.val 400), delayMaximum := some (.val 500) } :
          ExFetchRetryOptions)).delayMinimum = none →
      (400 : ℚ) = 1000) :=
  c9_delay_invariant
    { retry := { delayMinimum := some (.val 400), delayMaximum := some (.val 500) } } 0
    { hasEvent := false
      paginate := defaultPaginate
      retry := { attempts := 4
                 backoffMultiplier := 2
                 condition := none
                 delayMaximum := 500
                 delayMinimum := 400
                 jitter := 1 }
      timeout := none }
    rfl

/-- C9 counterexample: options providing only retry.delayMaximum = 500
are accepted by the constructor, yet the resulting policy keeps the
default delayMinimum = 1000, violating delayMin < delayMax — the
invariant is not validated in this case. -/
theorem c9_counterexample :
    ((ExFetch.construct { retry := { delayMaximum := some (.val 500) } } 0).2.map
      (fun cfg => (cfg.retry.delayMinimum, cfg.retry.delayMaximum)) =
      .ok ((1000 : ℚ), (500 : ℚ))) ∧
    ¬ ((1000 : ℚ) < 500) := by
  constructor
  · rfl
  · norm_num

/-- C10: with otherwise-default options, a supplied retry.condition is
invoked by the constructor exactly once, with the randomInt(100, 600)
probe value and true; a thrown exception propagates out of construction,
a non-boolean return makes construction fail with a TypeError, and a
boolean return lets construction succeed storing the condition. -/
theorem c10_condition_probe :
    ∀ (f : CondFn) (r : Nat),
      ExFetch.construct { retry := { condition := some f } } r =
        ([(r, true)],
          match f r true with
          | .throws e => .error e
          | .returns (.bool _) =>
            .ok { hasEvent := false
                  paginate := defaultPaginate
                  retry := { attempts := 4
                             backoffMultiplier := 2
                             condition := some (fun s b => condResultToBool (f s b))
                             delayMaximum := 60000
                             delayMinimum := 1000
                             jitter := 1 }
                  timeout := none }
          | .returns .nonBool => .error condTypeErrMsg) := by
  intro f r
  cases hf : f r true with
  | throws e =>
    simp [ExFetch.construct, resolveRetryAliases, jsOr, checkPaginateOptions,
      checkCountField, checkPauseField, mergePaginate, applyRetryOptions,
      checkNumField, checkConditionProbe, checkTimeout, hf]
  | returns v =>
    cases v with
    | bool b =>
      simp [ExFetch.construct, resolveRetryAliases, jsOr, checkPaginateOptions,
        checkCountField, checkPauseField, mergePaginate, applyRetryOptions,
        checkNumField, checkConditionProbe, checkTimeout, hf, defaultPaginate,
        JsNum.toQ, JsNum.toNatJ]
    | nonBool =>
      simp [ExFetch.construct, resolveRetryAliases, jsOr, checkPaginateOptions,
        checkCountField, checkPauseField, mergePaginate, applyRetryOptions,
        checkNumField, checkConditionProbe, checkTimeout, hf]

end ExFetchSpec
